import Mathlib

/-!
Verification development for the ProspectKeeper contact-freshness engine.

The Python sources are shallowly embedded as Lean definitions:

* money amounts (Python floats) are modelled as exact rationals;
* Python round(x, n) is modelled by pyRound, round-half-to-even on rationals;
* Python attribute lookup on the ContactStatus enum class is modelled by an
  explicit member-name table, so that a reference to a member the enum does
  not declare is visible as a lookup failure (an AttributeError at runtime);
* async gateway calls are modelled by injecting the structured result each
  gateway would return, and the engine additionally records which gateways
  it consulted, so that claims about gateway invocation are statable;
* code that can raise is modelled with Except.
-/

namespace ProspectKeeper

/-- Round-half-to-even of a rational to an integer, the tie-breaking rule of
the Python builtin round. -/
def roundHalfEven (q : ℚ) : ℤ :=
  let f : ℤ := ⌊q⌋
  let r : ℚ := q - (f : ℚ)
  if r < 1 / 2 then f
  else if 1 / 2 < r then f + 1
  else if f % 2 = 0 then f else f + 1

/-- Model of the Python builtin round(q, d): round to d decimal places,
ties to even. -/
def pyRound (q : ℚ) (d : ℕ) : ℚ :=
  (roundHalfEven (q * (10 : ℚ) ^ d) : ℚ) / (10 : ℚ) ^ d

/-- Python truthiness of an Optional[str]: None and the empty string are
falsy, every other string is truthy. -/
def pyTruthy : Option String → Bool
  | none => false
  | some s => !s.isEmpty

/-- Python str() of an Optional[str] as interpolated by an f-string:
None prints as the text None. -/
def optStr : Option String → String
  | none => "None"
  | some s => s

-- ────────────────────────────────────────────────────────────────────────
-- domain/entities/contact.py
-- ────────────────────────────────────────────────────────────────────────

/-- The four members of the ContactStatus enum in contact.py. -/
inductive ContactStatus where
  | active
  | inactive
  | unknown
  | optedOut
  deriving DecidableEq, Repr

/-- Python attribute lookup on the ContactStatus enum class: the class body
of contact.py declares exactly ACTIVE, INACTIVE, UNKNOWN and OPTED_OUT, so
any other member name fails to resolve (AttributeError). -/
def ContactStatus.attr : String → Option ContactStatus
  | "ACTIVE" => some .active
  | "INACTIVE" => some .inactive
  | "UNKNOWN" => some .unknown
  | "OPTED_OUT" => some .optedOut
  | _ => none

/-- The Contact dataclass of contact.py.  Timestamps are modelled as Nat
ticks; each mutator receives the current tick in place of
datetime.utcnow(). -/
structure Contact where
  id : String
  name : String
  email : String
  title : String
  organization : String
  status : ContactStatus := .unknown
  needs_human_review : Bool := false
  review_reason : Option String := none
  district_website : Option String := none
  linkedin_url : Option String := none
  email_hash : Option String := none
  created_at : Nat := 0
  updated_at : Nat := 0
  deriving DecidableEq, Repr

/-- Contact.create: factory constructing a new record; the generated uuid4
id is injected as a parameter. -/
def Contact.create (newId : String) (now : Nat) (name email title organization : String)
    (district_website : Option String := none)
    (linkedin_url : Option String := none) : Contact :=
  { id := newId, name := name, email := email, title := title,
    organization := organization,
    district_website := district_website, linkedin_url := linkedin_url,
    created_at := now, updated_at := now }

/-- Contact.flag_for_review. -/
def Contact.flag_for_review (c : Contact) (reason : String) (now : Nat) : Contact :=
  { c with needs_human_review := true, review_reason := some reason, updated_at := now }

/-- Contact.clear_review_flag. -/
def Contact.clear_review_flag (c : Contact) (now : Nat) : Contact :=
  { c with needs_human_review := false, review_reason := none, updated_at := now }

/-- Contact.update_email. -/
def Contact.update_email (c : Contact) (new_email : String) (now : Nat) : Contact :=
  { c with email := new_email, updated_at := now }

/-- Contact.mark_active. -/
def Contact.mark_active (c : Contact) (now : Nat) : Contact :=
  { c with status := .active, updated_at := now }

/-- Contact.mark_inactive. -/
def Contact.mark_inactive (c : Contact) (now : Nat) : Contact :=
  { c with status := .inactive, updated_at := now }

/-- Contact.opt_out: anonymize PII, keep a hash of the lower-cased email.
The external hashlib.sha256 hexdigest is injected as a function parameter.
Note the source sets needs_human_review to False but does not touch
review_reason. -/
def Contact.opt_out (c : Contact) (sha256hex : String → String) (now : Nat) : Contact :=
  { c with
    email_hash := some (sha256hex c.email.toLower),
    name := "[OPTED OUT]",
    email := "",
    title := "",
    organization := "",
    district_website := none,
    linkedin_url := none,
    status := .optedOut,
    needs_human_review := false,
    updated_at := now }

/-- Contact.is_opted_out. -/
def Contact.is_opted_out (c : Contact) : Bool :=
  c.status = ContactStatus.optedOut

/-- The review-flag invariant stated by the spec: the needs-human-review
flag and the review reason are either both absent or both present. -/
def reviewInvariant (c : Contact) : Prop :=
  c.needs_human_review = true ↔ c.review_reason ≠ none

instance (c : Contact) : Decidable (reviewInvariant c) := by
  unfold reviewInvariant; infer_instance

-- ────────────────────────────────────────────────────────────────────────
-- domain/entities/agent_economics.py
-- ────────────────────────────────────────────────────────────────────────

/-- Pricing constant HUMAN_HOURLY_RATE_USD = 30.0. -/
def HUMAN_HOURLY_RATE_USD : ℚ := 30

/-- Pricing constant MINUTES_PER_CONTACT_VERIFICATION = 5.0. -/
def MINUTES_PER_CONTACT_VERIFICATION : ℚ := 5

/-- Pricing constant MINUTES_PER_REPLACEMENT_RESEARCH = 15.0. -/
def MINUTES_PER_REPLACEMENT_RESEARCH : ℚ := 15

/-- Billing constant BILLED_RATE_PER_VERIFICATION_USD = 0.10. -/
def BILLED_RATE_PER_VERIFICATION_USD : ℚ := 1 / 10

/-- Billing constant BILLED_RATE_PER_REPLACEMENT_USD = 2.50. -/
def BILLED_RATE_PER_REPLACEMENT_USD : ℚ := 5 / 2

/-- The AgentEconomics dataclass (per-contact economics ledger entry). -/
structure AgentEconomics where
  contact_id : String
  claude_cost_usd : ℚ := 0
  tokens_used : ℕ := 0
  verified : Bool := false
  replacement_found : Bool := false
  flagged_for_review : Bool := false
  highest_tier_used : ℕ := 0
  deriving DecidableEq, Repr

/-- AgentEconomics.total_api_cost_usd: round(claude_cost_usd, 6). -/
def AgentEconomics.total_api_cost_usd (e : AgentEconomics) : ℚ :=
  pyRound e.claude_cost_usd 6

/-- AgentEconomics.labor_hours_saved. -/
def AgentEconomics.labor_hours_saved (e : AgentEconomics) : ℚ :=
  let minutes :=
    MINUTES_PER_CONTACT_VERIFICATION +
      (if e.replacement_found then MINUTES_PER_REPLACEMENT_RESEARCH else 0)
  pyRound (minutes / 60) 4

/-- AgentEconomics.estimated_value_generated_usd. -/
def AgentEconomics.estimated_value_generated_usd (e : AgentEconomics) : ℚ :=
  pyRound (e.labor_hours_saved * HUMAN_HOURLY_RATE_USD) 4

/-- AgentEconomics.calculate_net_roi. -/
def AgentEconomics.calculate_net_roi (e : AgentEconomics) : ℚ :=
  if e.total_api_cost_usd < 1 / 1000000 then 999999
  else
    pyRound
      ((e.estimated_value_generated_usd - e.total_api_cost_usd) / e.total_api_cost_usd * 100) 2

/-- The ValueProofReceipt dataclass (batch-level aggregate receipt). -/
structure ValueProofReceipt where
  batch_id : String
  run_at : Nat := 0
  contacts_processed : ℕ := 0
  contacts_verified_active : ℕ := 0
  contacts_marked_inactive : ℕ := 0
  replacements_found : ℕ := 0
  flagged_for_review : ℕ := 0
  total_api_cost_usd : ℚ := 0
  total_tokens_used : ℕ := 0
  total_labor_hours_saved : ℚ := 0
  total_value_generated_usd : ℚ := 0
  simulated_invoice_usd : ℚ := 0
  deriving DecidableEq, Repr

/-- ValueProofReceipt.net_roi_percentage. -/
def ValueProofReceipt.net_roi_percentage (r : ValueProofReceipt) : ℚ :=
  if r.total_api_cost_usd < 1 / 1000000 then 999999
  else
    pyRound
      ((r.total_value_generated_usd - r.total_api_cost_usd) / r.total_api_cost_usd * 100) 2

/-- ValueProofReceipt.cost_per_contact_usd. -/
def ValueProofReceipt.cost_per_contact_usd (r : ValueProofReceipt) : ℚ :=
  if r.contacts_processed = 0 then 0
  else pyRound (r.total_api_cost_usd / r.contacts_processed) 6

/-- ValueProofReceipt.cost_per_replacement_usd. -/
def ValueProofReceipt.cost_per_replacement_usd (r : ValueProofReceipt) : ℚ :=
  if r.replacements_found = 0 then 0
  else pyRound (r.total_api_cost_usd / r.replacements_found) 6

/-- One pass of the accumulation loop inside
ValueProofReceipt.from_economics_list. -/
def receiptStep (r : ValueProofReceipt) (econ : AgentEconomics) : ValueProofReceipt :=
  let r :=
    { r with
      total_api_cost_usd := r.total_api_cost_usd + econ.total_api_cost_usd,
      total_tokens_used := r.total_tokens_used + econ.tokens_used,
      total_labor_hours_saved := r.total_labor_hours_saved + econ.labor_hours_saved,
      total_value_generated_usd :=
        r.total_value_generated_usd + econ.estimated_value_generated_usd }
  let r :=
    if econ.verified then
      { r with contacts_verified_active := r.contacts_verified_active + 1 }
    else r
  let r :=
    if econ.replacement_found then
      { r with
        replacements_found := r.replacements_found + 1,
        contacts_marked_inactive := r.contacts_marked_inactive + 1 }
    else r
  if econ.flagged_for_review then
    { r with flagged_for_review := r.flagged_for_review + 1 }
  else r

/-- ValueProofReceipt.from_economics_list: sets contacts_processed, runs the
accumulation loop, computes the simulated invoice, then rounds the totals. -/
def ValueProofReceipt.from_economics_list (batch_id : String) (run_at : Nat)
    (economics : List AgentEconomics) : ValueProofReceipt :=
  let receipt : ValueProofReceipt :=
    { batch_id := batch_id, run_at := run_at, contacts_processed := economics.length }
  let receipt := economics.foldl receiptStep receipt
  let receipt :=
    { receipt with
      simulated_invoice_usd :=
        pyRound
          ((receipt.contacts_processed : ℚ) * BILLED_RATE_PER_VERIFICATION_USD +
            (receipt.replacements_found : ℚ) * BILLED_RATE_PER_REPLACEMENT_USD) 2 }
  { receipt with
    total_api_cost_usd := pyRound receipt.total_api_cost_usd 6,
    total_labor_hours_saved := pyRound receipt.total_labor_hours_saved 2,
    total_value_generated_usd := pyRound receipt.total_value_generated_usd 2 }

-- ────────────────────────────────────────────────────────────────────────
-- domain/interfaces: gateway result dataclasses
-- ────────────────────────────────────────────────────────────────────────

/-- SendEmailResult of i_email_sender_gateway.py. -/
structure SendEmailResult where
  success : Bool
  email : String
  error : Option String := none
  deriving DecidableEq, Repr

/-- ScraperResult of i_scraper_gateway.py. -/
structure ScraperResult where
  success : Bool
  person_found : Bool := false
  current_title : Option String := none
  organization : Option String := none
  evidence_url : Option String := none
  raw_text : Option String := none
  error : Option String := none
  deriving DecidableEq, Repr

/-- AIResearchResult of i_ai_gateway.py. -/
structure AIResearchResult where
  success : Bool
  contact_still_active : Option Bool := none
  current_title : Option String := none
  current_organization : Option String := none
  replacement_name : Option String := none
  replacement_title : Option String := none
  replacement_email : Option String := none
  tokens_input : ℕ := 0
  tokens_output : ℕ := 0
  cost_usd : ℚ := 0
  evidence_urls : List String := []
  error : Option String := none
  deriving DecidableEq, Repr

/-- AIResearchResult.total_tokens. -/
def AIResearchResult.total_tokens (r : AIResearchResult) : ℕ :=
  r.tokens_input + r.tokens_output

/-- LinkedInResult of i_linkedin_gateway.py.  The extended profile fields
(name, headline, location, experience, education, skills) are omitted: no
code path modelled here reads them. -/
structure LinkedInResult where
  success : Bool
  still_at_organization : Option Bool := none
  current_title : Option String := none
  current_organization : Option String := none
  profile_url : Option String := none
  error : Option String := none
  blocked : Bool := false
  deriving DecidableEq, Repr

/-- The EmailStatus enum of i_email_verification_gateway.py. -/
inductive EmailStatus where
  | valid
  | invalid
  | catchAll
  | unknown
  | spamtrap
  | abuse
  | doNotMail
  deriving DecidableEq, Repr

/-- EmailVerificationResult of i_email_verification_gateway.py. -/
structure EmailVerificationResult where
  email : String
  status : EmailStatus
  deliverability : String
  is_valid : Bool
  cost_usd : ℚ := 1 / 250
  sub_status : Option String := none
  error : Option String := none
  deriving DecidableEq, Repr

-- ────────────────────────────────────────────────────────────────────────
-- domain/entities/verification_result.py
-- ────────────────────────────────────────────────────────────────────────

/-- The VerificationResult dataclass. -/
structure VerificationResult where
  contact_id : String
  status : ContactStatus
  economics : AgentEconomics
  replacement_name : Option String := none
  replacement_email : Option String := none
  replacement_title : Option String := none
  low_confidence_flag : Bool := false
  current_organization : Option String := none
  evidence_urls : List String := []
  notes : Option String := none
  deriving DecidableEq, Repr

/-- VerificationResult.has_replacement: replacement_name is not None and
replacement_email is not None. -/
def VerificationResult.has_replacement (r : VerificationResult) : Bool :=
  r.replacement_name.isSome && r.replacement_email.isSome

/-- VerificationResult.needs_human_review: low_confidence_flag or
status == UNKNOWN. -/
def VerificationResult.needs_human_review (r : VerificationResult) : Bool :=
  r.low_confidence_flag || r.status = ContactStatus.unknown

-- ────────────────────────────────────────────────────────────────────────
-- use_cases/verify_contact.py — the 2-tier Decision Engine in src
-- ────────────────────────────────────────────────────────────────────────

/-- VerifyContactRequest dataclass. -/
structure VerifyContactRequest where
  contact : Contact
  tier : String := "free"
  deriving DecidableEq, Repr

/-- The gateways the engine may consult. -/
inductive GatewayCall where
  | sendConfirmation
  | scrapeSite
  | aiResearch
  | verifyEmail
  | linkedinCheck
  deriving DecidableEq, Repr

/-- Injected gateway behaviour: the structured result each awaited gateway
call would return for the contact under verification. -/
structure GatewayEnv where
  send : SendEmailResult
  scrape : ScraperResult
  ai : AIResearchResult
  deriving DecidableEq, Repr

/-- The observable outcome of one engine run: which gateways were consulted,
and either the returned VerificationResult or the message of the exception
the run raised. -/
structure ExecTrace where
  calls : List GatewayCall
  outcome : Except String VerificationResult
  deriving Repr

/-- The message of the AttributeError raised by the reference to the
undeclared enum member in the free-tier success branch. -/
def pendingConfirmationAttrError : String :=
  "AttributeError: type object ContactStatus has no attribute PENDING_CONFIRMATION"

/-- VerifyContactUseCase.execute of use_cases/verify_contact.py, the 2-tier
(free confirmation-email / paid scrape+AI) engine.  Control flow follows the
source line by line; the free-tier success branch evaluates the attribute
ContactStatus.PENDING_CONFIRMATION, which the enum does not declare. -/
def VerifyContactUseCase.execute (req : VerifyContactRequest) (env : GatewayEnv) :
    ExecTrace :=
  let contact := req.contact
  let economics : AgentEconomics := { contact_id := contact.id }
  -- Free Tier: send confirmation email
  if req.tier = "free" then
    let economics := { economics with highest_tier_used := 1 }
    let send_result := env.send
    if send_result.success then
      match ContactStatus.attr "PENDING_CONFIRMATION" with
      | some st =>
          { calls := [.sendConfirmation],
            outcome := .ok
              { contact_id := contact.id, status := st, economics := economics,
                notes := some
                  ("Confirmation email sent: Are you still reachable at " ++
                    contact.email ++ "?") } }
      | none =>
          { calls := [.sendConfirmation],
            outcome := .error pendingConfirmationAttrError }
    else
      let economics := { economics with flagged_for_review := true }
      { calls := [.sendConfirmation],
        outcome := .ok
          { contact_id := contact.id, status := .unknown, economics := economics,
            low_confidence_flag := true,
            notes := some
              ("Failed to send confirmation email: " ++ optStr send_result.error) } }
  else
    -- Paid Tier, Step 1: district/company website scraping
    let scrape_result := env.scrape
    let evidence_urls : List String :=
      if scrape_result.success && pyTruthy scrape_result.evidence_url then
        [optStr scrape_result.evidence_url]
      else []
    let context_text : Option String :=
      if scrape_result.success then scrape_result.raw_text else none
    if scrape_result.success && scrape_result.person_found then
      { calls := [.scrapeSite],
        outcome := .ok
          { contact_id := contact.id, status := .active,
            economics := { economics with verified := true },
            evidence_urls := evidence_urls,
            notes := some "Confirmed via public website" } }
    else
      -- Paid Tier, Step 2: Claude AI deep research
      let _ := context_text
      let ai_result := env.ai
      let economics :=
        { economics with
          highest_tier_used := 2,
          claude_cost_usd := economics.claude_cost_usd + ai_result.cost_usd,
          tokens_used := economics.tokens_used + ai_result.total_tokens }
      let evidence_urls := evidence_urls ++ ai_result.evidence_urls
      if ai_result.success && ai_result.contact_still_active.isSome then
        if ai_result.contact_still_active == some true then
          { calls := [.scrapeSite, .aiResearch],
            outcome := .ok
              { contact_id := contact.id, status := .active,
                economics := { economics with verified := true },
                evidence_urls := evidence_urls,
                notes := some "Confirmed active via AI research" } }
        else
          let has_replacement := pyTruthy ai_result.replacement_name
          { calls := [.scrapeSite, .aiResearch],
            outcome := .ok
              { contact_id := contact.id, status := .inactive,
                economics := { economics with replacement_found := has_replacement },
                replacement_name := ai_result.replacement_name,
                replacement_email := ai_result.replacement_email,
                replacement_title := ai_result.replacement_title,
                evidence_urls := evidence_urls,
                notes := some
                  (if has_replacement then "Departed — replacement identified via AI"
                   else "Departed — no replacement found") } }
      else
        -- All steps exhausted: flag for human review
        { calls := [.scrapeSite, .aiResearch],
          outcome := .ok
            { contact_id := contact.id, status := .unknown,
              economics := { economics with flagged_for_review := true },
              low_confidence_flag := true,
              evidence_urls := evidence_urls,
              notes := some "All verification steps exhausted — requires human review" } }

-- ────────────────────────────────────────────────────────────────────────
-- use_cases/process_batch.py — the Batch Orchestrator
-- ────────────────────────────────────────────────────────────────────────

/-- Python `x or default` on an Optional[str]. -/
def pyOr (o : Option String) (dflt : String) : String :=
  if pyTruthy o then optStr o else dflt

/-- ProcessBatchUseCase._apply_result: mutate the contact according to the
verdict and, when the verdict carries a replacement, build the replacement
contact record.  The generated uuid4 of the replacement is injected as
newId; the returned pair is (updated contact, optional replacement
record). -/
def applyResult (now : Nat) (newId : String) (contact : Contact)
    (result : VerificationResult) : Contact × Option Contact :=
  let contact :=
    if result.status = ContactStatus.active then contact.mark_active now
    else if result.status = ContactStatus.inactive then contact.mark_inactive now
    else contact
  let contact :=
    if result.needs_human_review then
      contact.flag_for_review (pyOr result.notes "Needs review") now
    else contact
  let replacement : Option Contact :=
    if result.has_replacement then
      some (Contact.create newId now
        (optStr result.replacement_name)
        (pyOr result.replacement_email "")
        (pyOr result.replacement_title contact.title)
        contact.organization
        contact.district_website)
    else none
  (contact, replacement)

/-- The error-list entry format of the per-contact exception handler in
ProcessBatchUseCase.execute.verify_one. -/
def batchErrorEntry (contact : Contact) (err : String) : String :=
  contact.id ++ " (" ++ contact.name ++ "): " ++ err

/-- Mutable state accumulated across the per-contact tasks of one batch. -/
structure BatchState where
  results : List VerificationResult := []
  errors : List String := []
  saved : List Contact := []
  inserted : List Contact := []

/-- One per-contact task of ProcessBatchUseCase.execute (verify_one): run
the Decision Engine, on success append the verdict to results and apply it,
on an exception append the formatted entry to the errors list.  The engine
invocation is injected as a function returning Except, exceptions as
error values. -/
def verifyOne (verify : Contact → Except String VerificationResult)
    (fresh : String → String) (now : Nat) (st : BatchState) (contact : Contact) :
    BatchState :=
  match verify contact with
  | .ok result =>
      let (updated, replacement) := applyResult now (fresh contact.id) contact result
      { st with
        results := st.results ++ [result],
        saved := st.saved ++ [updated],
        inserted := st.inserted ++ replacement.toList }
  | .error exc =>
      { st with errors := st.errors ++ [batchErrorEntry contact exc] }

/-- The response record of ProcessBatchUseCase.execute. -/
structure ProcessBatchResponse where
  batch_id : String
  receipt : ValueProofReceipt
  results : List VerificationResult
  errors : List String
  saved : List Contact
  inserted : List Contact

/-- ProcessBatchUseCase.execute: run the engine over every loaded contact,
then aggregate the economics of the successful verdicts into the batch
receipt.  Completion order is modelled as load order; the claims proved
below only concern list membership and counts, which the asynchronous
gather join preserves. -/
def processBatch (verify : Contact → Except String VerificationResult)
    (fresh : String → String) (now : Nat) (batch_id : String) (run_at : Nat)
    (contacts : List Contact) : ProcessBatchResponse :=
  let st := contacts.foldl (verifyOne verify fresh now) {}
  let receipt :=
    ValueProofReceipt.from_economics_list batch_id run_at
      (st.results.map (fun r => r.economics))
  { batch_id := batch_id, receipt := receipt, results := st.results,
    errors := st.errors, saved := st.saved, inserted := st.inserted }

-- ────────────────────────────────────────────────────────────────────────
-- the 3-tier + email-gate Decision Engine variant
-- ────────────────────────────────────────────────────────────────────────

/-- Modelled from the spec: the email-validity gate of the fullest Decision
Engine variant (spec section 4.2 step 1) is implemented by no module under
src (only the unit tests in tests/unit/use_cases/test_verify_contact.py
exercise it).  Per the spec, a definitive negative validator outcome is one
of the four categories invalid, spamtrap, abuse and do-not-mail, as opposed
to the ambiguous catch-all and unknown outcomes. -/
def EmailStatus.definitiveNegative : EmailStatus → Bool
  | .invalid => true
  | .spamtrap => true
  | .abuse => true
  | .doNotMail => true
  | _ => false

/-- Verdict status set of the full engine variant, including the transient
pending-confirmation state of the cheapest-path branch. -/
inductive EngineStatus where
  | active
  | inactive
  | unknown
  | pendingConfirmation
  deriving DecidableEq, Repr

/-- Modelled from the spec: the Economics Ledger Entry of the fullest
engine variant, with the per-signal cost breakdown (email-validation cost,
deep-research cost) described in spec section 3; the implementation with
these fields is absent from src (the unit tests construct it with a
zerobounce_cost_usd field). -/
structure FullLedger where
  contact_id : String
  email_validation_cost_usd : ℚ := 0
  research_cost_usd : ℚ := 0
  tokens_used : ℕ := 0
  verified : Bool := false
  replacement_found : Bool := false
  flagged_for_review : Bool := false
  highest_tier_used : ℕ := 0
  deriving DecidableEq, Repr

/-- Verdict record of the full engine variant. -/
structure FullVerdict where
  contact_id : String
  status : EngineStatus
  ledger : FullLedger
  replacement_name : Option String := none
  replacement_email : Option String := none
  replacement_title : Option String := none
  low_confidence : Bool := false
  evidence_urls : List String := []
  notes : String := ""
  deriving DecidableEq, Repr

/-- Tier mode switch of the full engine variant: the cheap
confirmation-email path versus escalation through the paid signals. -/
inductive TierMode where
  | cheap
  | escalate
  deriving DecidableEq, Repr

/-- Injected gateway behaviour for the full engine variant. -/
structure FullEnv where
  emailCheck : EmailVerificationResult
  send : SendEmailResult
  scrape : ScraperResult
  social : LinkedInResult
  research : AIResearchResult
  deriving DecidableEq, Repr

/-- Modelled from the spec: the fullest (3-tier plus email-gate) Decision
Engine of spec section 4.2, absent from src; the steps below follow the
numbered transitions of the spec.  The pair returned is (gateways
consulted, verdict). -/
def executeFull (contact : Contact) (mode : TierMode) (env : FullEnv) :
    List GatewayCall × FullVerdict :=
  -- Step 1: email-validity gate; record the validator cost.
  let ledger : FullLedger :=
    { contact_id := contact.id,
      email_validation_cost_usd := env.emailCheck.cost_usd,
      highest_tier_used := 1 }
  if env.emailCheck.status.definitiveNegative then
    ([.verifyEmail],
      { contact_id := contact.id, status := .inactive,
        ledger := { ledger with verified := true },
        notes := "email failed validation — conclusive negative" })
  else
    match mode with
    | .cheap =>
      -- Step 2: cheapest-path branch (confirmation email).
      if env.send.success then
        ([.verifyEmail, .sendConfirmation],
          { contact_id := contact.id, status := .pendingConfirmation,
            ledger := ledger, notes := "confirmation email sent" })
      else
        ([.verifyEmail, .sendConfirmation],
          { contact_id := contact.id, status := .unknown,
            ledger := { ledger with flagged_for_review := true },
            low_confidence := true, notes := "confirmation email failed" })
    | .escalate =>
      -- Step 3: website-presence probe.
      if env.scrape.success && env.scrape.person_found then
        ([.verifyEmail, .scrapeSite],
          { contact_id := contact.id, status := .active,
            ledger := { ledger with verified := true },
            evidence_urls := env.scrape.evidence_url.toList,
            notes := "confirmed via organization website" })
      else
        let _context : Option String :=
          if env.scrape.success then env.scrape.raw_text else none
        -- Step 4: social-profile probe.
        let ledger := { ledger with highest_tier_used := 2 }
        if env.social.success && (env.social.still_at_organization == some true) then
          ([.verifyEmail, .scrapeSite, .linkedinCheck],
            { contact_id := contact.id, status := .active,
              ledger := { ledger with verified := true },
              evidence_urls := env.social.profile_url.toList,
              notes := "confirmed via social profile" })
        else
          -- Step 5: deep-research escalation; always bill cost and tokens.
          let ledger :=
            { ledger with
              highest_tier_used := 3,
              research_cost_usd := env.research.cost_usd,
              tokens_used := env.research.total_tokens }
          let allCalls :=
            [GatewayCall.verifyEmail, .scrapeSite, .linkedinCheck, .aiResearch]
          if env.research.success && (env.research.contact_still_active == some true) then
            (allCalls,
              { contact_id := contact.id, status := .active,
                ledger := { ledger with verified := true },
                evidence_urls := env.research.evidence_urls,
                notes := "confirmed active via deep research" })
          else if env.research.success &&
              (env.research.contact_still_active == some false) then
            (allCalls,
              { contact_id := contact.id, status := .inactive,
                ledger :=
                  { ledger with
                    replacement_found := env.research.replacement_name.isSome },
                replacement_name := env.research.replacement_name,
                replacement_email := env.research.replacement_email,
                replacement_title := env.research.replacement_title,
                evidence_urls := env.research.evidence_urls,
                notes := "departed per deep research" })
          else
            -- Step 6: exhaustion fallback.
            (allCalls,
              { contact_id := contact.id, status := .unknown,
                ledger := { ledger with flagged_for_review := true },
                low_confidence := true,
                evidence_urls := env.research.evidence_urls,
                notes := "all signals exhausted — requires human review" })

-- ────────────────────────────────────────────────────────────────────────
-- sample inputs shared by concrete evaluations
-- ────────────────────────────────────────────────────────────────────────

/-- Sample contact used by the concrete evaluations below. -/
def cJane : Contact :=
  { id := "c-1", name := "Jane Smith", email := "jane.smith@acme.com",
    title := "VP of Operations", organization := "Acme Corp",
    district_website := some "https://acme.com" }

-- ────────────────────────────────────────────────────────────────────────
-- helper lemmas on the receipt aggregation fold
-- ────────────────────────────────────────────────────────────────────────

theorem receiptStep_processed (r : ValueProofReceipt) (e : AgentEconomics) :
    (receiptStep r e).contacts_processed = r.contacts_processed := by
  simp only [receiptStep]
  split <;> split <;> split <;> rfl

theorem receiptStep_replacements (r : ValueProofReceipt) (e : AgentEconomics) :
    (receiptStep r e).replacements_found =
      r.replacements_found + (if e.replacement_found then 1 else 0) := by
  simp only [receiptStep]
  split <;> split <;> split <;> simp

theorem receiptStep_inactive (r : ValueProofReceipt) (e : AgentEconomics) :
    (receiptStep r e).contacts_marked_inactive =
      r.contacts_marked_inactive + (if e.replacement_found then 1 else 0) := by
  simp only [receiptStep]
  split <;> split <;> split <;> simp

theorem foldl_receiptStep_processed (l : List AgentEconomics) (r : ValueProofReceipt) :
    (l.foldl receiptStep r).contacts_processed = r.contacts_processed := by
  induction l generalizing r with
  | nil => rfl
  | cons e l ih => rw [List.foldl_cons, ih, receiptStep_processed]

theorem foldl_receiptStep_replacements (l : List AgentEconomics) (r : ValueProofReceipt) :
    (l.foldl receiptStep r).replacements_found =
      r.replacements_found + l.countP (fun e => e.replacement_found) := by
  induction l generalizing r with
  | nil => simp
  | cons e l ih =>
      rw [List.foldl_cons, ih, receiptStep_replacements, List.countP_cons]
      by_cases h : e.replacement_found
      · simp only [h, if_true, decide_True]
        omega
      · simp [h]


theorem foldl_receiptStep_inactive (l : List AgentEconomics) (r : ValueProofReceipt) :
    (l.foldl receiptStep r).contacts_marked_inactive =
      r.contacts_marked_inactive + l.countP (fun e => e.replacement_found) := by
  induction l generalizing r with
  | nil => simp
  | cons e l ih =>
      rw [List.foldl_cons, ih, receiptStep_inactive, List.countP_cons]
      by_cases h : e.replacement_found
      · simp only [h, if_true, decide_True]
        omega
      · simp [h]

theorem from_economics_list_counts (batch_id : String) (run_at : Nat)
    (economics : List AgentEconomics) :
    (ValueProofReceipt.from_economics_list batch_id run_at economics).contacts_processed =
        economics.length ∧
      (ValueProofReceipt.from_economics_list batch_id run_at economics).replacements_found =
        economics.countP (fun e => e.replacement_found) ∧
      (ValueProofReceipt.from_economics_list batch_id run_at economics).contacts_marked_inactive =
        economics.countP (fun e => e.replacement_found) := by
  simp only [ValueProofReceipt.from_economics_list]
  refine ⟨?_, ?_, ?_⟩
  · rw [foldl_receiptStep_processed]
  · rw [foldl_receiptStep_replacements]; simp
  · rw [foldl_receiptStep_inactive]; simp

theorem from_economics_list_invoice (batch_id : String) (run_at : Nat)
    (economics : List AgentEconomics) :
    (ValueProofReceipt.from_economics_list batch_id run_at economics).simulated_invoice_usd =
      pyRound ((economics.length : ℚ) * BILLED_RATE_PER_VERIFICATION_USD +
        (economics.countP (fun e => e.replacement_found) : ℚ) *
          BILLED_RATE_PER_REPLACEMENT_USD) 2 := by
  simp only [ValueProofReceipt.from_economics_list]
  rw [foldl_receiptStep_processed, foldl_receiptStep_replacements]
  simp

-- ────────────────────────────────────────────────────────────────────────
-- claim theorems
-- ────────────────────────────────────────────────────────────────────────

/-- C5: for every list of Ledger Entries, the Batch Receipt built by
from_economics_list has contacts_marked_inactive equal to
replacements_found equal to the number of entries with
replacement_found=true, contacts_processed equal to the list length, and
simulated_invoice_usd equal to
round(contacts_processed x 0.10 + replacements_found x 2.50, 2); in
particular for 3 entries of which 2 have replacement_found=true the
invoice is 5.30. -/
theorem claim_C5_receipt_aggregation :
    (∀ (batch_id : String) (run_at : Nat) (economics : List AgentEconomics),
      (ValueProofReceipt.from_economics_list batch_id run_at economics).contacts_marked_inactive =
          economics.countP (fun e => e.replacement_found) ∧
        (ValueProofReceipt.from_economics_list batch_id run_at economics).replacements_found =
          economics.countP (fun e => e.replacement_found) ∧
        (ValueProofReceipt.from_economics_list batch_id run_at economics).contacts_processed =
          economics.length ∧
        (ValueProofReceipt.from_economics_list batch_id run_at economics).simulated_invoice_usd =
          pyRound ((economics.length : ℚ) * (1 / 10) +
            (economics.countP (fun e => e.replacement_found) : ℚ) * (5 / 2)) 2) ∧
      (ValueProofReceipt.from_economics_list "b" 0
          [{ contact_id := "e1", replacement_found := true },
            { contact_id := "e2", replacement_found := true },
            { contact_id := "e3" }]).simulated_invoice_usd = 53 / 10 := by
  have hmain : ∀ (batch_id : String) (run_at : Nat) (economics : List AgentEconomics),
      (ValueProofReceipt.from_economics_list batch_id run_at economics).contacts_marked_inactive =
          economics.countP (fun e => e.replacement_found) ∧
        (ValueProofReceipt.from_economics_list batch_id run_at economics).replacements_found =
          economics.countP (fun e => e.replacement_found) ∧
        (ValueProofReceipt.from_economics_list batch_id run_at economics).contacts_processed =
          economics.length ∧
        (ValueProofReceipt.from_economics_list batch_id run_at economics).simulated_invoice_usd =
          pyRound ((economics.length : ℚ) * (1 / 10) +
            (economics.countP (fun e => e.replacement_found) : ℚ) * (5 / 2)) 2 := by
    intro batch_id run_at economics
    obtain ⟨h1, h2, h3⟩ := from_economics_list_counts batch_id run_at economics
    refine ⟨h3, h2, h1, ?_⟩
    rw [from_economics_list_invoice]
    rfl
  refine ⟨hmain, ?_⟩
  rw [(hmain "b" 0 _).2.2.2]
  norm_num [pyRound, roundHalfEven]

/-- C6: the per-entry net-ROI calculation returns exactly the sentinel
999999 whenever the rounded total cost is below 1e-6, and otherwise
returns ((value_generated - total_cost) / total_cost) x 100 rounded to 2
decimal places; the Batch Receipt net_roi_percentage obeys the same rule
over its aggregated totals. -/
theorem claim_C6_net_roi_sentinel :
    (∀ e : AgentEconomics,
      (pyRound e.claude_cost_usd 6 < 1 / 1000000 → e.calculate_net_roi = 999999) ∧
        (¬ pyRound e.claude_cost_usd 6 < 1 / 1000000 →
          e.calculate_net_roi =
            pyRound ((e.estimated_value_generated_usd - e.total_api_cost_usd) /
              e.total_api_cost_usd * 100) 2)) ∧
      (∀ r : ValueProofReceipt,
        (r.total_api_cost_usd < 1 / 1000000 → r.net_roi_percentage = 999999) ∧
          (¬ r.total_api_cost_usd < 1 / 1000000 →
            r.net_roi_percentage =
              pyRound ((r.total_value_generated_usd - r.total_api_cost_usd) /
                r.total_api_cost_usd * 100) 2)) := by
  constructor
  · intro e
    rw [show pyRound e.claude_cost_usd 6 = e.total_api_cost_usd from rfl]
    constructor
    · intro h
      rw [AgentEconomics.calculate_net_roi, if_pos h]
    · intro h
      rw [AgentEconomics.calculate_net_roi, if_neg h]
  · intro r
    constructor
    · intro h
      rw [ValueProofReceipt.net_roi_percentage, if_pos h]
    · intro h
      rw [ValueProofReceipt.net_roi_percentage, if_neg h]

/-- Witness for C6: a ledger entry with zero cost hits the sentinel branch,
and one with cost 0.004 hits the division branch. -/
theorem claim_C6_net_roi_sentinel_witness :
    AgentEconomics.calculate_net_roi { contact_id := "w0" } = 999999 ∧
      AgentEconomics.calculate_net_roi { contact_id := "w1", claude_cost_usd := 1 / 250 } =
        pyRound
          ((AgentEconomics.estimated_value_generated_usd
                { contact_id := "w1", claude_cost_usd := 1 / 250 } -
              AgentEconomics.total_api_cost_usd
                { contact_id := "w1", claude_cost_usd := 1 / 250 }) /
            AgentEconomics.total_api_cost_usd
              { contact_id := "w1", claude_cost_usd := 1 / 250 } * 100) 2 := by
  constructor
  · exact (claim_C6_net_roi_sentinel.1 _).1 (by norm_num [pyRound, roundHalfEven])
  · exact (claim_C6_net_roi_sentinel.1 _).2 (by norm_num [pyRound, roundHalfEven])

/-- C4 counterexample: a contact that is flagged for review with a stored
reason satisfies the review invariant, but after opt_out the flag is
cleared while the reason is left in place, so opt_out does not preserve
the invariant — refuting the claim that every Contact operation preserves
it. -/
theorem claim_C4_opt_out_invariant_counterexample :
    reviewInvariant
        { cJane with needs_human_review := true, review_reason := some "stale data" } ∧
      ¬ reviewInvariant
        (Contact.opt_out
          { cJane with needs_human_review := true, review_reason := some "stale data" }
          (fun _ => "hashvalue") 7) := by
  constructor
  · simp [reviewInvariant, cJane]
  · simp [reviewInvariant, cJane, Contact.opt_out]

/-- C4 amended: after opt_out the status is opted_out and the PII fields
are cleared or anonymized; flag_for_review, clear_review_flag,
mark_active, mark_inactive and update_email preserve the invariant that
the review flag and the review reason are both absent or both present;
opt_out clears the flag but leaves the review reason untouched, so it
preserves the invariant exactly when the review reason was already
absent. -/
theorem claim_C4_opt_out_and_review_invariant :
    (∀ (sha256hex : String → String) (now : Nat) (c : Contact),
      (c.opt_out sha256hex now).status = ContactStatus.optedOut ∧
        (c.opt_out sha256hex now).name = "[OPTED OUT]" ∧
        (c.opt_out sha256hex now).email = "" ∧
        (c.opt_out sha256hex now).title = "" ∧
        (c.opt_out sha256hex now).organization = "" ∧
        (c.opt_out sha256hex now).district_website = none ∧
        (c.opt_out sha256hex now).linkedin_url = none) ∧
      (∀ (now : Nat) (c : Contact) (reason : String),
        reviewInvariant (c.flag_for_review reason now)) ∧
      (∀ (now : Nat) (c : Contact), reviewInvariant (c.clear_review_flag now)) ∧
      (∀ (now : Nat) (c : Contact),
        reviewInvariant c → reviewInvariant (c.mark_active now)) ∧
      (∀ (now : Nat) (c : Contact),
        reviewInvariant c → reviewInvariant (c.mark_inactive now)) ∧
      (∀ (now : Nat) (c : Contact) (new_email : String),
        reviewInvariant c → reviewInvariant (c.update_email new_email now)) ∧
      (∀ (sha256hex : String → String) (now : Nat) (c : Contact),
        c.review_reason = none → reviewInvariant (c.opt_out sha256hex now)) := by
  refine ⟨?_, ?_, ?_, ?_, ?_, ?_, ?_⟩
  · intro sha256hex now c
    exact ⟨rfl, rfl, rfl, rfl, rfl, rfl, rfl⟩
  · intro now c reason
    simp [reviewInvariant, Contact.flag_for_review]
  · intro now c
    simp [reviewInvariant, Contact.clear_review_flag]
  · intro now c h
    simpa [reviewInvariant, Contact.mark_active] using h
  · intro now c h
    simpa [reviewInvariant, Contact.mark_inactive] using h
  · intro now c new_email h
    simpa [reviewInvariant, Contact.update_email] using h
  · intro sha256hex now c h
    simp [reviewInvariant, Contact.opt_out, h]

/-- Witness for the amended C4: applies the amended theorem at a concrete
contact with no review reason. -/
theorem claim_C4_opt_out_and_review_invariant_witness :
    reviewInvariant (cJane.mark_active 3) ∧
      reviewInvariant (cJane.opt_out (fun _ => "hashvalue") 3) := by
  constructor
  · exact claim_C4_opt_out_and_review_invariant.2.2.2.1 3 cJane
      (by simp [reviewInvariant, cJane])
  · exact claim_C4_opt_out_and_review_invariant.2.2.2.2.2.2 (fun _ => "hashvalue") 3 cJane
      (by simp [cJane])

theorem contactStatus_attr_pending :
    ContactStatus.attr "PENDING_CONFIRMATION" = none := rfl

/-- C1: the claim that the engine returns a VerificationResult and never
raises for every tier mode and every combination of gateway outcomes is
refuted by the free-tier success branch: for any tier other than free the
run always returns a result, but in the free tier the run returns a result
exactly when the confirmation-email send fails — on send success the
reference to the undeclared enum member PENDING_CONFIRMATION raises an
AttributeError. -/
theorem claim_C1_engine_totality :
    ∀ (env : GatewayEnv) (c : Contact),
      (VerifyContactUseCase.execute { contact := c, tier := "paid" } env).outcome.isOk =
          true ∧
        (VerifyContactUseCase.execute { contact := c, tier := "free" } env).outcome.isOk =
          !env.send.success := by
  intro env c
  constructor
  · simp only [VerifyContactUseCase.execute]
    rw [if_neg (by decide : ¬ ("paid" : String) = "free")]
    split
    · rfl
    · split
      · split
        · rfl
        · rfl
      · rfl
  · cases hs : env.send.success <;>
      simp [VerifyContactUseCase.execute, hs, contactStatus_attr_pending, Except.isOk, Except.toBool]

/-- C2: in the free tier, the only gateway consulted is the
confirmation-email sender, and a send failure produces the claimed verdict
(unknown, low-confidence, flagged for review); but on send success the
engine raises an AttributeError instead of returning a
pending-confirmation verdict, because the ContactStatus enum declares no
PENDING_CONFIRMATION member.  Evaluated at concrete inputs. -/
theorem claim_C2_free_tier_branch :
    ((VerifyContactUseCase.execute { contact := cJane, tier := "free" }
        { send := { success := true, email := "jane.smith@acme.com" },
          scrape := { success := false }, ai := { success := false } }).calls =
      [GatewayCall.sendConfirmation]) ∧
      ((VerifyContactUseCase.execute { contact := cJane, tier := "free" }
          { send := { success := true, email := "jane.smith@acme.com" },
            scrape := { success := false }, ai := { success := false } }).outcome =
        Except.error pendingConfirmationAttrError) ∧
      ((VerifyContactUseCase.execute { contact := cJane, tier := "free" }
          { send := { success := false, email := "jane.smith@acme.com",
                      error := some "SMTP 550" },
            scrape := { success := false }, ai := { success := false } }).calls =
        [GatewayCall.sendConfirmation]) ∧
      ((VerifyContactUseCase.execute { contact := cJane, tier := "free" }
          { send := { success := false, email := "jane.smith@acme.com",
                      error := some "SMTP 550" },
            scrape := { success := false }, ai := { success := false } }).outcome =
        Except.ok
          { contact_id := "c-1", status := ContactStatus.unknown,
            economics :=
              { contact_id := "c-1", highest_tier_used := 1, flagged_for_review := true },
            low_confidence_flag := true,
            notes := some "Failed to send confirmation email: SMTP 550" }) := by
  refine ⟨rfl, rfl, rfl, ?_⟩
  simp [VerifyContactUseCase.execute, cJane, optStr]

/-- C8: in the paid mode, when the website scrape does not find the person
and the AI research call fails or returns no determination, the engine
returns verdict unknown with the low-confidence flag, flags the Ledger for
review, notes that all signals were exhausted, and the derived
needs_human_review is true. -/
theorem claim_C8_exhaustion_fallback :
    ∀ (env : GatewayEnv) (c : Contact),
      (env.scrape.success && env.scrape.person_found) = false →
      (env.ai.success && env.ai.contact_still_active.isSome) = false →
      ∃ r,
        (VerifyContactUseCase.execute { contact := c, tier := "paid" } env).outcome =
            Except.ok r ∧
          r.status = ContactStatus.unknown ∧
          r.low_confidence_flag = true ∧
          r.economics.flagged_for_review = true ∧
          r.notes = some "All verification steps exhausted — requires human review" ∧
          r.needs_human_review = true := by
  intro env c h1 h2
  simp only [VerifyContactUseCase.execute]
  rw [if_neg (by decide : ¬ ("paid" : String) = "free")]
  simp only [h1, h2, Bool.false_eq_true, if_false]
  exact ⟨_, rfl, rfl, rfl, rfl, rfl, rfl⟩

/-- Witness for C8: a concrete run with a failed scrape and a failed AI
call hits the exhaustion fallback. -/
theorem claim_C8_exhaustion_fallback_witness :
    ∃ r,
      (VerifyContactUseCase.execute { contact := cJane, tier := "paid" }
          { send := { success := true, email := "jane.smith@acme.com" },
            scrape := { success := false, error := some "Timeout" },
            ai := { success := false, error := some "API error" } }).outcome =
          Except.ok r ∧
        r.status = ContactStatus.unknown ∧
        r.low_confidence_flag = true ∧
        r.economics.flagged_for_review = true ∧
        r.notes = some "All verification steps exhausted — requires human review" ∧
        r.needs_human_review = true :=
  claim_C8_exhaustion_fallback _ cJane rfl rfl

/-- C9: has_replacement holds exactly when the replacement name and the
replacement email are both non-null; concretely, a paid-tier run in which
the AI reports the contact departed with a replacement name and email both
present yields has_replacement = true, and one with only a name yields
has_replacement = false. -/
theorem claim_C9_has_replacement :
    (∀ r : VerificationResult,
      r.has_replacement = true ↔
        r.replacement_name ≠ none ∧ r.replacement_email ≠ none) ∧
      (∃ r,
        (VerifyContactUseCase.execute { contact := cJane, tier := "paid" }
            { send := { success := true, email := "jane.smith@acme.com" },
              scrape := { success := false },
              ai := { success := true, contact_still_active := some false,
                      replacement_name := some "Bob New",
                      replacement_email := some "bob.new@acme.com",
                      replacement_title := some "Director" } }).outcome =
            Except.ok r ∧
          r.status = ContactStatus.inactive ∧ r.has_replacement = true) ∧
      (∃ r,
        (VerifyContactUseCase.execute { contact := cJane, tier := "paid" }
            { send := { success := true, email := "jane.smith@acme.com" },
              scrape := { success := false },
              ai := { success := true, contact_still_active := some false,
                      replacement_name := some "Bob New" } }).outcome =
            Except.ok r ∧
          r.status = ContactStatus.inactive ∧ r.has_replacement = false) := by
  refine ⟨?_, ⟨_, rfl, rfl, rfl⟩, ⟨_, rfl, rfl, rfl⟩⟩
  intro r
  simp [VerificationResult.has_replacement, Option.isSome_iff_ne_none]

/-- C10: in the paid mode, when the AI reports the contact departed with a
replacement name but no replacement email, the Ledger entry has
replacement_found = true while the verdict has_replacement is false, the
Batch Receipt counts the entry in replacements_found and
contacts_marked_inactive, and the orchestrator verdict application creates
no replacement contact record. -/
theorem claim_C10_replacement_name_only :
    ∀ (env : GatewayEnv) (c c2 : Contact) (n batch_id newId : String)
      (run_at now : Nat),
      (env.scrape.success && env.scrape.person_found) = false →
      env.ai.success = true →
      env.ai.contact_still_active = some false →
      env.ai.replacement_name = some n →
      n.isEmpty = false →
      env.ai.replacement_email = none →
      ∃ r,
        (VerifyContactUseCase.execute { contact := c, tier := "paid" } env).outcome =
            Except.ok r ∧
          r.economics.replacement_found = true ∧
          r.has_replacement = false ∧
          (ValueProofReceipt.from_economics_list batch_id run_at
              [r.economics]).replacements_found = 1 ∧
          (ValueProofReceipt.from_economics_list batch_id run_at
              [r.economics]).contacts_marked_inactive = 1 ∧
          (applyResult now newId c2 r).2 = none := by
  intro env c c2 n batch_id newId run_at now h1 h2 h3 h4 h5 h6
  simp only [VerifyContactUseCase.execute]
  rw [if_neg (by decide : ¬ ("paid" : String) = "free")]
  simp only [h1, h2, h3, h4, h5, h6, Bool.false_eq_true, if_false, Option.isSome_some,
    Bool.and_true, if_true, pyTruthy, Bool.not_false]
  refine ⟨_, rfl, rfl, rfl, ?_, ?_, ?_⟩
  · rw [(from_economics_list_counts batch_id run_at _).2.1]
    simp
  · rw [(from_economics_list_counts batch_id run_at _).2.2]
    simp
  · simp [applyResult, VerificationResult.has_replacement]

/-- Witness for C10: a concrete paid-tier run with replacement name Bob
New and no replacement email. -/
theorem claim_C10_replacement_name_only_witness :
    ∃ r,
      (VerifyContactUseCase.execute { contact := cJane, tier := "paid" }
          { send := { success := true, email := "jane.smith@acme.com" },
            scrape := { success := false },
            ai := { success := true, contact_still_active := some false,
                    replacement_name := some "Bob New" } }).outcome =
          Except.ok r ∧
        r.economics.replacement_found = true ∧
        r.has_replacement = false ∧
        (ValueProofReceipt.from_economics_list "b" 0 [r.economics]).replacements_found = 1 ∧
        (ValueProofReceipt.from_economics_list "b" 0
            [r.economics]).contacts_marked_inactive = 1 ∧
        (applyResult 9 "new-id" cJane r).2 = none :=
  claim_C10_replacement_name_only _ cJane cJane "Bob New" "b" "new-id" 0 9
    rfl rfl rfl rfl rfl rfl

theorem foldl_verifyOne_results (verify : Contact → Except String VerificationResult)
    (fresh : String → String) (now : Nat) (cs : List Contact) (st : BatchState) :
    (cs.foldl (verifyOne verify fresh now) st).results =
      st.results ++ cs.filterMap (fun c => (verify c).toOption) := by
  induction cs generalizing st with
  | nil => simp
  | cons c cs ih =>
      rw [List.foldl_cons, ih]
      cases hv : verify c <;> simp [verifyOne, hv, Except.toOption]

theorem foldl_verifyOne_errors (verify : Contact → Except String VerificationResult)
    (fresh : String → String) (now : Nat) (cs : List Contact) (st : BatchState) :
    (cs.foldl (verifyOne verify fresh now) st).errors =
      st.errors ++ cs.filterMap (fun c =>
        match verify c with
        | .error err => some (batchErrorEntry c err)
        | .ok _ => none) := by
  induction cs generalizing st with
  | nil => simp
  | cons c cs ih =>
      rw [List.foldl_cons, ih]
      cases hv : verify c <;> simp [verifyOne, hv]

/-- C7: when the Decision Engine invocation for one contact in a batch
raises, the orchestrator records the formatted entry in the errors list,
the failing contact contributes nothing to the results list or to the
receipt aggregation, and every contact whose invocation returns normally
still appears in the results list. -/
theorem claim_C7_batch_failure_isolation :
    ∀ (verify : Contact → Except String VerificationResult)
      (fresh : String → String) (now : Nat) (batch_id : String) (run_at : Nat)
      (contacts : List Contact) (c : Contact) (e : String),
      c ∈ contacts →
      verify c = .error e →
      ((processBatch verify fresh now batch_id run_at contacts).results =
          contacts.filterMap (fun x => (verify x).toOption)) ∧
        ((processBatch verify fresh now batch_id run_at contacts).errors =
          contacts.filterMap (fun x =>
            match verify x with
            | .error err => some (batchErrorEntry x err)
            | .ok _ => none)) ∧
        batchErrorEntry c e ∈
          (processBatch verify fresh now batch_id run_at contacts).errors ∧
        (∀ (x : Contact) (r : VerificationResult), x ∈ contacts → verify x = .ok r →
          r ∈ (processBatch verify fresh now batch_id run_at contacts).results) ∧
        (processBatch verify fresh now batch_id run_at contacts).receipt.contacts_processed =
          (processBatch verify fresh now batch_id run_at contacts).results.length := by
  intro verify fresh now batch_id run_at contacts c e hc he
  have hres : (processBatch verify fresh now batch_id run_at contacts).results =
      contacts.filterMap (fun x => (verify x).toOption) := by
    simp only [processBatch]
    rw [foldl_verifyOne_results]
    rfl
  have herr : (processBatch verify fresh now batch_id run_at contacts).errors =
      contacts.filterMap (fun x =>
        match verify x with
        | .error err => some (batchErrorEntry x err)
        | .ok _ => none) := by
    simp only [processBatch]
    rw [foldl_verifyOne_errors]
    rfl
  refine ⟨hres, herr, ?_, ?_, ?_⟩
  · rw [herr]
    exact List.mem_filterMap.2 ⟨c, hc, by rw [he]⟩
  · intro x r hx hr
    rw [hres]
    exact List.mem_filterMap.2 ⟨x, hx, by rw [hr]; rfl⟩
  · simp only [processBatch]
    rw [foldl_verifyOne_results]
    rw [(from_economics_list_counts batch_id run_at _).1]
    simp

/-- Stubbed engine used by the C7 witness: the contact with id c-bad
raises, every other contact verifies normally. -/
def verifyStub (c : Contact) : Except String VerificationResult :=
  if c.id = "c-bad" then .error "boom"
  else .ok { contact_id := c.id, status := .active, economics := { contact_id := c.id } }

/-- Second sample contact, whose engine invocation raises in the C7
witness. -/
def cBad : Contact :=
  { id := "c-bad", name := "Bob Jones", email := "bob@beta.org",
    title := "Director", organization := "Beta Org" }

/-- Witness for C7: in a two-contact batch where the second engine
invocation raises, the formatted error entry is recorded, the first
contact still appears in results, and the receipt counts only the one
successful verdict. -/
theorem claim_C7_batch_failure_isolation_witness :
    batchErrorEntry cBad "boom" ∈
        (processBatch verifyStub (fun s => s) 0 "b" 0 [cJane, cBad]).errors ∧
      (∀ (x : Contact) (r : VerificationResult), x ∈ [cJane, cBad] →
        verifyStub x = .ok r →
        r ∈ (processBatch verifyStub (fun s => s) 0 "b" 0 [cJane, cBad]).results) := by
  have h := claim_C7_batch_failure_isolation verifyStub (fun s => s) 0 "b" 0
    [cJane, cBad] cBad "boom" (by simp) (by rfl)
  exact ⟨h.2.2.1, h.2.2.2.1⟩

/-- C3: in the full engine variant, each of the four definitive negative
email-validity categories terminates the run immediately with verdict
inactive, Ledger verified = true, the validator cost recorded, highest
tier 1, and no other gateway consulted; the ambiguous categories catch-all
and unknown do not short-circuit — at least one further gateway is
consulted. -/
theorem claim_C3_email_validity_short_circuit :
    ∀ (c : Contact) (mode : TierMode) (env : FullEnv),
      (env.emailCheck.status.definitiveNegative = true →
        (executeFull c mode env).1 = [GatewayCall.verifyEmail] ∧
          (executeFull c mode env).2.status = EngineStatus.inactive ∧
          (executeFull c mode env).2.ledger.verified = true ∧
          (executeFull c mode env).2.ledger.email_validation_cost_usd =
            env.emailCheck.cost_usd ∧
          (executeFull c mode env).2.ledger.highest_tier_used = 1) ∧
        (env.emailCheck.status = EmailStatus.catchAll ∨
            env.emailCheck.status = EmailStatus.unknown →
          2 ≤ (executeFull c mode env).1.length) := by
  intro c mode env
  constructor
  · intro h
    simp only [executeFull, h, if_true]
    simp
  · intro h
    have hd : env.emailCheck.status.definitiveNegative = false := by
      rcases h with h | h <;> rw [h] <;> rfl
    cases mode
    case cheap =>
      cases hs : env.send.success <;>
        simp [executeFull, hd, hs]
    case escalate =>
      simp only [executeFull, hd, Bool.false_eq_true, if_false]
      split
      · simp
      · split
        · simp
        · split
          · simp
          · split
            · simp
            · simp

/-- Full-engine environment with a definitive-negative (invalid) validator
status, used by the C3 witness. -/
def fullEnvInvalid : FullEnv :=
  { emailCheck :=
      { email := "jane.smith@acme.com", status := EmailStatus.invalid,
        deliverability := "Undeliverable", is_valid := false },
    send := { success := true, email := "jane.smith@acme.com" },
    scrape := { success := false }, social := { success := false },
    research := { success := false } }

/-- Full-engine environment with an ambiguous (catch-all) validator
status, used by the C3 witness. -/
def fullEnvCatchAll : FullEnv :=
  { emailCheck :=
      { email := "jane.smith@acme.com", status := EmailStatus.catchAll,
        deliverability := "Risky", is_valid := false },
    send := { success := true, email := "jane.smith@acme.com" },
    scrape := { success := false }, social := { success := false },
    research := { success := false } }

/-- Witness for C3: a concrete invalid-status validator result
short-circuits to inactive, and a concrete catch-all result leads to at
least one further gateway call. -/
theorem claim_C3_email_validity_short_circuit_witness :
    (executeFull cJane TierMode.escalate fullEnvInvalid).2.status =
        EngineStatus.inactive ∧
      2 ≤ (executeFull cJane TierMode.escalate fullEnvCatchAll).1.length := by
  constructor
  · exact ((claim_C3_email_validity_short_circuit cJane .escalate fullEnvInvalid).1
      rfl).2.1
  · exact (claim_C3_email_validity_short_circuit cJane .escalate fullEnvCatchAll).2
      (Or.inl rfl)

end ProspectKeeper
